import Mathlib

/-!
Shallow embedding of the N3FJP-Scoreboard-API server core (src/server.py):
the response parser (`parse_cmd_records`, `_parse_tags`), the mode-points
classifier (`points_from_modetest`), the aggregation state (`Aggregates`,
`add_record`), the Field Day bonus/score computation
(`_calculate_field_day_bonus`, the totals part of `snapshot`) and the
per-band rate computation (the band-rate portion of `_calculate_rates`).

Python dicts are modelled as association lists preserving insertion order
(updating an existing key keeps its position, a new key is appended, exactly
as CPython dicts behave); Python sets as lists with membership-guarded
insertion; Python ints as `Int`/`Nat`; floats from `round(x, 1)` as exact
rationals with an explicit one-decimal rounding function.
-/

namespace Server

/-! ### Association-list dictionaries (insertion-ordered, like Python dict) -/

/-- Python `d.get(k)`: value of the first entry whose key is `k`. -/
def getV {α : Type} : List (String × α) → String → Option α
  | [], _ => none
  | (a, v) :: t, k => if a = k then some v else getV t k

/-- Python `d[k] = d.get(k, 0) + n`: replace in place, or append a fresh entry. -/
def bumpBy (d : List (String × Nat)) (k : String) (n : Nat) : List (String × Nat) :=
  match d with
  | [] => [(k, n)]
  | (a, v) :: t => if a = k then (a, v + n) :: t else (a, v) :: bumpBy t k n

/-- Python `d[k] = v` on a string-valued dict: replace in place or append. -/
def dictSet (d : List (String × String)) (k v : String) : List (String × String) :=
  match d with
  | [] => [(k, v)]
  | (a, w) :: t => if a = k then (a, v) :: t else (a, w) :: dictSet t k v

/-- Sum of a counter dict's values. -/
def sumVals : List (String × Nat) → Nat
  | [] => 0
  | (_, v) :: t => v + sumVals t

/-! ### Python string / int helpers used by server.py

Lean core's `String.trim`/`toUpper`/`split` are built on well-founded
recursion over byte positions, which the kernel cannot evaluate; the
helpers below are structural recursions over the character list instead,
so every definition here computes under `decide`. -/

/-- Python `str.strip()` on the character list. -/
def trimCL (l : List Char) : List Char :=
  ((l.dropWhile Char.isWhitespace).reverse.dropWhile Char.isWhitespace).reverse

/-- Python `str.strip()`. -/
def pyStrip (s : String) : String := String.mk (trimCL s.data)

/-- Python `str.upper()` (ASCII, as all tag text here is ASCII). -/
def pyUpper (s : String) : String := String.mk (s.data.map Char.toUpper)

/-- Split on every character satisfying `p`, keeping empty pieces —
the semantics of Python `str.split(sep)` (and of `re.split` on a
single-character class). -/
def splitCL (p : Char → Bool) : List Char → List (List Char)
  | [] => [[]]
  | c :: rest =>
      let r := splitCL p rest
      if p c then [] :: r
      else
        match r with
        | h :: t => (c :: h) :: t
        | [] => [[c]]

/-- Python `str.split()` (no argument): split on whitespace runs, dropping
empty pieces. -/
def pySplitWs (s : String) : List String :=
  ((splitCL Char.isWhitespace s.data).map String.mk).filter (fun w => w ≠ "")

/-- Python `str.zfill(w)`: left-pad with `'0'` to width `w`, keeping a
leading sign character in front of the padding. -/
def zfill (w : Nat) (s : String) : String :=
  match s.data with
  | c :: rest =>
      if c = '+' ∨ c = '-' then
        String.mk (c :: (List.replicate (w - 1 - rest.length) '0' ++ rest))
      else
        String.mk (List.replicate (w - s.data.length) '0' ++ s.data)
  | [] => String.mk (List.replicate w '0')

/-- Python `qso_time.replace(":", "")`. -/
def removeColons (s : String) : String :=
  String.mk (s.data.filter (fun c => c ≠ ':'))

/-- Digit run of Python `int(...)`: digits with single underscores strictly
between digits (`int("1_0") = 10`, `int("_1")`/`int("1_")`/`int("1__2")`
raise). Accumulator `acc`, `pd` = "previous char was a digit". -/
def pyNatAux : List Char → Nat → Bool → Option Nat
  | [], acc, pd => if pd then some acc else none
  | c :: rest, acc, pd =>
      if c = '_' then (if pd then pyNatAux rest acc false else none)
      else if c.isDigit then pyNatAux rest (acc * 10 + (c.toNat - 48)) true
      else none

/-- Python `int(s)` on a decimal string: surrounding whitespace stripped,
optional sign, then a digit run; `none` models `ValueError`. -/
def pyInt? (s : String) : Option Int :=
  match trimCL s.data with
  | '+' :: rest => (pyNatAux rest 0 false).map (fun n => (n : Int))
  | '-' :: rest => (pyNatAux rest 0 false).map (fun n => -(n : Int))
  | l => (pyNatAux l 0 false).map (fun n => (n : Int))

/-! ### Records -/

/-- A parsed record: uppercase tag name -> string value (Python dict). -/
abbrev Record := List (String × String)

/-- Python `r.get(k1) or r.get(k2) or ... or ""`: the first value that is present
and non-empty (Python truthiness on strings), else `""`. -/
def fieldOr (r : Record) : List String → String
  | [] => ""
  | k :: ks =>
      match getV r k with
      | some v => if v = "" then fieldOr r ks else v
      | none => fieldOr r ks

/-! ### points_from_modetest (server.py lines 137-143) -/

def points_from_modetest (modetest : String) : Nat :=
  let mt := pyUpper modetest
  if mt = "PH" then 1
  else if mt = "CW" ∨ mt = "DIG" then 2
  else 0

/-! ### Aggregation state (server.py lines 159-184) -/

structure QsoEntry where
  call : String
  operator : String
  band : String
  mode : String
  time : String
deriving DecidableEq

structure StationInfo where
  name : String
  operator : String
  band : String
  mode : String
  recent : List QsoEntry
  lastUpdate : String
deriving DecidableEq

structure Aggregates where
  seen_keys : List Int := []
  total_contacts : Nat := 0
  total_points : Nat := 0
  contacts_by_operator : List (String × Nat) := []
  points_by_operator : List (String × Nat) := []
  contacts_by_mode : List (String × Nat) := []
  contacts_by_band : List (String × Nat) := []
  contacts_by_continent : List (String × Nat) := []
  contacts_by_state : List (String × Nat) := []
  contacts_by_country : List (String × Nat) := []
  sections_worked : List String := []
  stations : List (String × StationInfo) := []
  qsos_by_hour : List (String × Nat) := []
  qsos_by_band_hour : List (String × List (String × Nat)) := []
  all_qso_times : List String := []
deriving DecidableEq

def emptyAggregates : Aggregates := {}

/-! ### Field extractors used by add_record (server.py lines 202-307) -/

/-- Operator: `(r.get("FLDOPERATOR") or r.get("OPERATOR") or "").strip() or "UNKNOWN"`. -/
def opOf (r : Record) : String :=
  let s := pyStrip (fieldOr r ["FLDOPERATOR", "OPERATOR"])
  if s = "" then "UNKNOWN" else s

/-- Mode: `(r.get("MODE") or "").strip() or "UNK"`. -/
def modeOf (r : Record) : String :=
  let s := pyStrip (fieldOr r ["MODE"])
  if s = "" then "UNK" else s

def bandOf (r : Record) : String := pyStrip (fieldOr r ["BAND"])

def contOf (r : Record) : String := pyStrip (fieldOr r ["CONTINENT"])

def stateOf (r : Record) : String := pyStrip (fieldOr r ["STATE"])

def countryOf (r : Record) : String := pyStrip (fieldOr r ["COUNTRYWORKED"])

def sectionOf (r : Record) : String := pyStrip (fieldOr r ["ARRLSECTION", "SECTION"])

def dateOf (r : Record) : String := pyStrip (fieldOr r ["DATE", "QSODATE", "FLDQSODATE"])

def timeOf (r : Record) : String := pyStrip (fieldOr r ["TIMEON", "FLDTIMEON"])

def callOf (r : Record) : String := pyStrip (fieldOr r ["CALL"])

/-- Python `r.get("MODETEST", "")`. -/
def modetestOf (r : Record) : String := (getV r "MODETEST").getD ""

/-- Station name: explicit field, else callsign-derived fallback
(server.py lines 301-303). -/
def stationOf (r : Record) : String :=
  let s := pyStrip (fieldOr r ["STATION", "FLDSTATION"])
  if s = "" then "Op: " ++ opOf r else s

/-- Full time `f"..." .strip()` joining date and time with a space (server.py line 306). -/
def fullTimeOf (r : Record) : String :=
  pyStrip (dateOf r ++ " " ++ timeOf r)

/-- The primary key as the code derives it (server.py lines 187-193):
first non-empty of the two fields, parsed as a Python int; a missing,
empty, or non-numeric value yields `none`. -/
def pkOf (r : Record) : Option Int :=
  let pk_raw := fieldOr r ["FLDPRIMARYKEY", "PRIMARYKEY"]
  if pk_raw = "" then none else pyInt? pk_raw

/-! ### Timestamp derivation (server.py lines 236-297) -/

/-- The try-block of add_record deriving the hour-bucket key.  Returns
`none` whenever the code would skip the time-bucket update: empty date or
time, a date in neither encoding, an empty first slash-part remainder (the
`IndexError` path, caught by the `except`), or a too-short time.  The year
is hard-coded to 2026 as in the source. -/
def parseHourKey (qso_date qso_time : String) : Option String :=
  if qso_date = "" ∨ qso_time = "" then none
  else
    let md : Option (String × String) :=
      if qso_date.data.contains '/' then
        let parts := (splitCL (fun c => c = '/') qso_date.data).map String.mk
        if parts.length ≥ 2 then
          let month := zfill 2 (parts.getD 0 "")
          match pySplitWs (parts.getD 1 "") with
          | [] => none
          | w :: _ => some (month, zfill 2 w)
        else none
      else if qso_date.data.length = 8 ∧ qso_date.data.all Char.isDigit then
        some (String.mk ((qso_date.data.drop 4).take 2),
              String.mk ((qso_date.data.drop 6).take 2))
      else none
    let tclean := trimCL (removeColons qso_time).data
    let hour : Option String :=
      if tclean.length ≥ 2 then some (String.mk (tclean.take 2)) else none
    match md, hour with
    | some (m, d), some h => some ("2026-" ++ m ++ "-" ++ d ++ "-" ++ h)
    | _, _ => none

/-! ### add_record (server.py lines 186-334) -/

/-- Python `self.sections_worked.add(section)` (sets modelled as lists without
duplicates; membership-guarded append). -/
def addSection (l : List String) (s : String) : List String :=
  if s ∈ l then l else l ++ [s]

/-- The two-level histogram update
`qsos_by_band_hour.setdefault(band, {}); ...[band][hour] += 1`. -/
def bumpBandHour (d : List (String × List (String × Nat))) (b h : String) :
    List (String × List (String × Nat)) :=
  match d with
  | [] => [(b, bumpBy [] h 1)]
  | (a, inner) :: t =>
      if a = b then (a, bumpBy inner h 1) :: t else (a, inner) :: bumpBandHour t b h

/-- Python `stations[k] = f (stations.get(k))`: replace in place or append. -/
def setStation (d : List (String × StationInfo)) (k : String)
    (f : Option StationInfo → StationInfo) : List (String × StationInfo) :=
  match d with
  | [] => [(k, f none)]
  | (a, v) :: t =>
      if a = k then (a, f (some v)) :: t else (a, v) :: setStation t k f

/-- The contact summary prepended to a station's recent list
(server.py lines 326-332). -/
def qsoEntryOf (r : Record) : QsoEntry :=
  { call := callOf r, operator := opOf r, band := bandOf r, mode := modeOf r,
    time := fullTimeOf r }

/-- Net effect of the station-registry upsert (server.py lines 309-334):
create-if-new, overwrite operator/band/mode/lastUpdate, prepend the
contact summary and truncate to 5. -/
def stationUpd (r : Record) (old : Option StationInfo) : StationInfo :=
  let oldRecent := match old with | some s => s.recent | none => []
  let oldName := match old with | some s => s.name | none => stationOf r
  { name := oldName, operator := opOf r, band := bandOf r, mode := modeOf r,
    recent := (qsoEntryOf r :: oldRecent).take 5,
    lastUpdate := fullTimeOf r }

/-- Body of add_record after the primary-key dedup gate
(server.py lines 200-334). -/
def add_record_core (st : Aggregates) (r : Record) : Aggregates :=
  let pts := points_from_modetest (modetestOf r)
  let hourKey := parseHourKey (dateOf r) (timeOf r)
  { st with
    total_contacts := st.total_contacts + 1
    contacts_by_operator := bumpBy st.contacts_by_operator (opOf r) 1
    total_points := st.total_points + pts
    points_by_operator := bumpBy st.points_by_operator (opOf r) pts
    contacts_by_mode := bumpBy st.contacts_by_mode (modeOf r) 1
    contacts_by_band :=
      if bandOf r ≠ "" then bumpBy st.contacts_by_band (bandOf r) 1
      else st.contacts_by_band
    contacts_by_continent :=
      if contOf r ≠ "" then bumpBy st.contacts_by_continent (contOf r) 1
      else st.contacts_by_continent
    contacts_by_state :=
      if stateOf r ≠ "" then bumpBy st.contacts_by_state (stateOf r) 1
      else st.contacts_by_state
    contacts_by_country :=
      if countryOf r ≠ "" then bumpBy st.contacts_by_country (countryOf r) 1
      else st.contacts_by_country
    sections_worked :=
      if sectionOf r ≠ "" then addSection st.sections_worked (sectionOf r)
      else st.sections_worked
    qsos_by_hour :=
      match hourKey with
      | some h => bumpBy st.qsos_by_hour h 1
      | none => st.qsos_by_hour
    qsos_by_band_hour :=
      match hourKey with
      | some h =>
          if bandOf r ≠ "" then bumpBandHour st.qsos_by_band_hour (bandOf r) h
          else st.qsos_by_band_hour
      | none => st.qsos_by_band_hour
    all_qso_times :=
      match hourKey with
      | some _ => st.all_qso_times ++ [dateOf r ++ " " ++ timeOf r]
      | none => st.all_qso_times
    stations := setStation st.stations (stationOf r) (stationUpd r) }

/-- Aggregates.add_record (server.py lines 186-334): integer primary keys
are deduplicated through `seen_keys`; everything else merges. -/
def add_record (st : Aggregates) (r : Record) : Aggregates :=
  match pkOf r with
  | some k =>
      if k ∈ st.seen_keys then st
      else add_record_core { st with seen_keys := k :: st.seen_keys } r
  | none => add_record_core st r

/-! ### Response parser (server.py lines 90-134)

The regexes of the source are modelled by explicit character scanners with
the exact same matching discipline: left-to-right scan, first match wins,
scanning resumes after the end of each match.  Case-insensitive comparison
(`re.IGNORECASE`) is by lowercasing both sides. -/

/-- Case-insensitive "`pat` is a prefix of `s`". -/
def startsWithCI : List Char → List Char → Bool
  | [], _ => true
  | _ :: _, [] => false
  | p :: ps, c :: cs => (p.toLower = c.toLower) && startsWithCI ps cs

/-- First case-insensitive occurrence of `pat` in `s`: returns the text
before the match and the text after it (the regex-engine primitive shared
by `re.findall` on literal patterns and by the lazy `(.*?)close` idiom). -/
def splitOnceCI (pat : List Char) : List Char → Option (List Char × List Char)
  | [] => none
  | c :: rest =>
      if startsWithCI pat (c :: rest) then some ([], (c :: rest).drop pat.length)
      else
        match splitOnceCI pat rest with
        | some (pre, post) => some (c :: pre, post)
        | none => none

/-- Tag characters `[A-Z0-9_]` under `re.IGNORECASE`. -/
def isTagChar (c : Char) : Bool :=
  (('A' ≤ c ∧ c ≤ 'Z') ∨ ('a' ≤ c ∧ c ≤ 'z') ∨ ('0' ≤ c ∧ c ≤ '9') ∨ c = '_')

/-- Scanner for `_TAG_RE = <([A-Z0-9_]+)>(.*?)</\1>` (DOTALL+IGNORECASE):
at each position, a match needs `<`, a maximal non-empty tag-character run,
`>`, and a later case-insensitive `</run>`; the lazy group stops at the
first such close.  `fuel` only bounds the recursion; each step strictly
shrinks the text, so `fuel = length` never runs out (see `findTags`). -/
def findTagsF : Nat → List Char → List (String × String)
  | 0, _ => []
  | _ + 1, [] => []
  | fuel + 1, c :: rest =>
      if c = '<' then
        let run := rest.takeWhile isTagChar
        match rest.dropWhile isTagChar with
        | '>' :: body =>
            if run = [] then findTagsF fuel rest
            else
              match splitOnceCI ('<' :: '/' :: (run ++ ['>'])) body with
              | some (value, post) =>
                  (String.mk run, String.mk value) :: findTagsF fuel post
              | none => findTagsF fuel rest
        | _ => findTagsF fuel rest
      else findTagsF fuel rest

/-- All `<TAG>value</TAG>` matches of `_TAG_RE` in order. -/
def findTags (s : List Char) : List (String × String) :=
  findTagsF s.length s

/-- Function `_parse_tags` (server.py lines 92-99): uppercase the tag, skip the two
structural pseudo-tags, strip the value, last duplicate wins. -/
def parse_tags (block : List Char) : Record :=
  (findTags block).foldl
    (fun acc p =>
      let tagU := pyStrip (pyUpper p.1)
      if tagU = "" ∨ tagU = "CMD" ∨ tagU = "LISTRESPONSE" then acc
      else dictSet acc tagU (pyStrip p.2))
    []

/-- The marker word `"LISTRESPONSE"` as characters. -/
def lrWord : List Char := "LISTRESPONSE".data

/-- Does `</\s*LISTRESPONSE\s*>` (IGNORECASE) match starting here? -/
def matchCloseAt : List Char → Bool
  | '<' :: '/' :: t =>
      let t1 := t.dropWhile Char.isWhitespace
      if startsWithCI lrWord t1 then
        match (t1.drop 12).dropWhile Char.isWhitespace with
        | '>' :: _ => true
        | _ => false
      else false
  | _ => false

/-- Whether `re.search(r"</\s*LISTRESPONSE\s*>", text, re.IGNORECASE)` matches. -/
def containsCloseLR : List Char → Bool
  | [] => false
  | c :: rest => matchCloseAt (c :: rest) || containsCloseLR rest

/-- If `<\s*LISTRESPONSE\s*>` (IGNORECASE) matches here, the remainder
after the match. -/
def matchOpenWs : List Char → Option (List Char)
  | '<' :: t =>
      let t1 := t.dropWhile Char.isWhitespace
      if startsWithCI lrWord t1 then
        match (t1.drop 12).dropWhile Char.isWhitespace with
        | '>' :: r => some r
        | _ => none
      else none
  | _ => none

/-- First match of the Format-B marker: text before it and text after it. -/
def splitFirstMarker : List Char → Option (List Char × List Char)
  | [] => none
  | c :: rest =>
      match matchOpenWs (c :: rest) with
      | some r => some ([], r)
      | none =>
          match splitFirstMarker rest with
          | some (pre, post) => some (c :: pre, post)
          | none => none

/-- Python `re.split(r"<\s*LISTRESPONSE\s*>", text, re.IGNORECASE)`: the pieces
between marker matches.  Each match consumes at least 14 characters, so
`fuel = length + 1` never runs out. -/
def splitMarkersF : Nat → List Char → List (List Char)
  | 0, s => [s]
  | fuel + 1, s =>
      match splitFirstMarker s with
      | none => [s]
      | some (pre, post) => pre :: splitMarkersF fuel post

def splitMarkers (s : List Char) : List (List Char) :=
  splitMarkersF (s.length + 1) s

/-- Format A (server.py lines 117-123): successive
`<LISTRESPONSE>(.*?)</LISTRESPONSE>` matches (lazy close, scan resumes
after each match).  Each match consumes at least 29 characters, so
`fuel = length + 1` never runs out. -/
def findBlocksAF : Nat → List Char → List (List Char)
  | 0, _ => []
  | fuel + 1, s =>
      match splitOnceCI ("<LISTRESPONSE>".data) s with
      | none => []
      | some (_, afterOpen) =>
          match splitOnceCI ("</LISTRESPONSE>".data) afterOpen with
          | none => []
          | some (content, afterClose) => content :: findBlocksAF fuel afterClose

def findBlocksA (s : List Char) : List (List Char) :=
  findBlocksAF (s.length + 1) s

/-- The Format-A arm of parse_cmd_records: parse every closed block, keep
the non-empty records. -/
def formatA_records (s : List Char) : List Record :=
  ((findBlocksA s).map parse_tags).filter (fun rc => !rc.isEmpty)

/-- The Format-B arm of parse_cmd_records: split on the outer marker, drop
the preamble before the first marker, parse each chunk, keep the non-empty
records. -/
def formatB_records (s : List Char) : List Record :=
  (((splitMarkers s).drop 1).map parse_tags).filter (fun rc => !rc.isEmpty)

/-- parse_cmd_records (server.py lines 102-134): hybrid parser — Format A
exactly when a closing outer delimiter occurs anywhere, else Format B. -/
def parse_cmd_records (text : String) : List Record :=
  let s := text.data
  if s.isEmpty then []
  else if containsCloseLR s then formatA_records s
  else formatB_records s

/-! ### Field Day bonus and the snapshot score (server.py lines 336-439) -/

/-- The scoring configuration bag: the keys _calculate_field_day_bonus
reads from the config dict, with its `config.get(..., default)` defaults.
`field_day_class = none` models an absent key (default `"1A"`). -/
structure FDConfig where
  field_day_class : Option String := none
  emergency_power : Bool := false
  media_publicity : Bool := false
  public_location : Bool := false
  public_information_table : Bool := false
  nts_message_originated : Int := 0
  nts_message_handled : Int := 0
  satellite_qso : Bool := false
  w1aw_bulletin : Bool := false
  educational_activity : Bool := false
  social_media : Bool := false
  youth_participation : Bool := false
  site_visit_official : Bool := false
deriving DecidableEq

structure FieldDayBonus where
  bonusPoints : Int
  bonusBreakdown : List (String × Int)
  classMultiplier : Nat
  powerMultiplier : Nat
  fdClass : String
deriving DecidableEq

/-- Python `min(x, 10)` on ints, written as an explicit comparison. -/
def pyMinInt (a b : Int) : Int := if a ≤ b then a else b

/-- Aggregates._calculate_field_day_bonus (server.py lines 336-412).  The
sequential `bonus_points += p; bonus_breakdown.append(...)` blocks are one
ordered catalog of (enabled, name, points) entries; summing the enabled
points and listing the enabled entries in order is exactly what the
sequence of conditional appends computes. -/
def calculate_field_day_bonus (config : FDConfig) : FieldDayBonus :=
  let fd_class := config.field_day_class.getD "1A"
  let class_multiplier :=
    match fd_class.data with
    | c :: _ => if c.isDigit then c.toNat - 48 else 1
    | [] => 1
  let power_multiplier := if config.emergency_power then 2 else 1
  let nts_originated := pyMinInt config.nts_message_originated 10
  let nts_handled := pyMinInt config.nts_message_handled 10
  let nts_total_points := (nts_originated + nts_handled) * 10
  let catalog : List (Bool × String × Int) :=
    [(config.emergency_power, "100% Emergency Power", 100),
     (config.media_publicity, "Media Publicity", 100),
     (config.public_location, "Public Location", 100),
     (config.public_information_table, "Public Information Table", 100),
     (decide (nts_total_points > 0),
       "NTS Messages (" ++ toString (nts_originated + nts_handled) ++ ")",
       nts_total_points),
     (config.satellite_qso, "Satellite QSO", 100),
     (config.w1aw_bulletin, "W1AW Bulletin Copy", 100),
     (config.educational_activity, "Educational Activity", 100),
     (config.social_media, "Social Media", 100),
     (config.youth_participation, "Youth Participation", 100),
     (config.site_visit_official, "Site Visit by Official", 100)]
  let enabled := catalog.filter (fun e => e.1)
  { bonusPoints := (enabled.map (fun e => e.2.2)).foldl (fun a b => a + b) 0,
    bonusBreakdown := enabled.map (fun e => e.2),
    classMultiplier := class_multiplier,
    powerMultiplier := power_multiplier, fdClass := fd_class }

/-- The `totals` object of Aggregates.snapshot (server.py lines 419-439).
`config = none` models both `None` and a falsy (empty) config dict, for
which the code skips the bonus calculation. -/
structure SnapshotTotals where
  contacts : Nat
  points : Nat
  bonusPoints : Int
  finalScore : Int
  classMultiplier : Nat
  powerMultiplier : Nat
deriving DecidableEq

def snapshotTotals (agg : Aggregates) (config : Option FDConfig) : SnapshotTotals :=
  let field_day_bonus := config.map calculate_field_day_bonus
  let base_points := agg.total_points
  let bonus_points : Int :=
    match field_day_bonus with | some b => b.bonusPoints | none => 0
  let class_mult : Nat :=
    match field_day_bonus with | some b => b.classMultiplier | none => 1
  let power_mult : Nat :=
    match field_day_bonus with | some b => b.powerMultiplier | none => 1
  let final_score : Int :=
    (base_points : Int) * (class_mult : Int) * (power_mult : Int) + bonus_points
  { contacts := agg.total_contacts, points := base_points,
    bonusPoints := bonus_points, finalScore := final_score,
    classMultiplier := class_mult, powerMultiplier := power_mult }

/-! ### Band rates (the band-rate portion of Aggregates._calculate_rates,
server.py lines 477-490) -/

/-- One-decimal rounding of Python `round(x, 1)`, on exact rationals:
`⌊10·q + 1/2⌋ / 10`, computed on the reduced fraction `q = num/den` as
`fdiv (20·num + den) (2·den) / 10` (the denominator is positive, so
flooring division of the numerator is the floor).  CPython rounds the
nearest binary float, whose tie-breaking noise is not modelled; no value
in these claims sits on a tie. -/
def round1 (q : ℚ) : ℚ :=
  Rat.divInt (Int.fdiv (20 * q.num + (q.den : ℤ)) (2 * (q.den : ℤ))) 10

/-- The `for band, hour_data in qsos_by_band_hour.items()` loop building
`band_rates` (server.py lines 479-483); dict insertion order equals
iteration order, so the result list preserves the input order. -/
def bandRatesLoop : List (String × List (String × Nat)) → List (String × ℚ)
  | [] => []
  | (b, hour_data) :: t =>
      if hour_data ≠ [] then
        let total_qsos := sumVals hour_data
        let num_hours := hour_data.length
        (b, if num_hours > 0 then round1 (Rat.divInt total_qsos num_hours) else 0)
          :: bandRatesLoop t
      else bandRatesLoop t

/-- Band rates with the no-hourly-data fallback (server.py lines 485-490):
if no band produced an hourly rate but per-band counts exist, rate every
band over an assumed 24-hour event. -/
def calc_band_rates (agg : Aggregates) : List (String × ℚ) :=
  let band_rates := bandRatesLoop agg.qsos_by_band_hour
  if band_rates = [] ∧ agg.contacts_by_band ≠ [] then
    agg.contacts_by_band.map (fun p => (p.1, round1 (Rat.divInt p.2 24)))
  else band_rates

end Server

namespace Server

/-! ## Supporting lemmas -/

theorem sumVals_bumpBy (d : List (String × Nat)) (k : String) (n : Nat) :
    sumVals (bumpBy d k n) = sumVals d + n := by
  induction d with
  | nil => simp [bumpBy, sumVals]
  | cons p t ih =>
      obtain ⟨a, v⟩ := p
      by_cases hak : a = k
      · simp [bumpBy, hak, sumVals]; omega
      · simp [bumpBy, hak, sumVals, ih]; omega

/-- Invariants preserved by every merge are preserved by any merge fold. -/
theorem foldl_add_record_inv (P : Aggregates → Prop)
    (step : ∀ st r, P st → P (add_record st r)) :
    ∀ (rs : List Record) (st : Aggregates), P st → P (List.foldl add_record st rs) := by
  intro rs
  induction rs with
  | nil => intro st h; simpa using h
  | cons r t ih => intro st h; exact ih _ (step _ _ h)

/-- add_record either discards the record outright or runs the merge body
on a state differing from `st` only in `seen_keys`. -/
theorem add_record_cases (st : Aggregates) (r : Record) :
    add_record st r = st ∨
    (∃ st₀ : Aggregates, add_record st r = add_record_core st₀ r
      ∧ st₀.total_contacts = st.total_contacts
      ∧ st₀.total_points = st.total_points
      ∧ st₀.contacts_by_operator = st.contacts_by_operator
      ∧ st₀.contacts_by_mode = st.contacts_by_mode
      ∧ st₀.qsos_by_hour = st.qsos_by_hour
      ∧ st₀.qsos_by_band_hour = st.qsos_by_band_hour
      ∧ st₀.all_qso_times = st.all_qso_times
      ∧ st₀.stations = st.stations) := by
  cases hpk : pkOf r with
  | none =>
      right
      exact ⟨st, by simp [add_record, hpk], rfl, rfl, rfl, rfl, rfl, rfl, rfl, rfl⟩
  | some k =>
      by_cases hk : k ∈ st.seen_keys
      · left; simp [add_record, hpk, hk]
      · right
        refine ⟨{ st with seen_keys := k :: st.seen_keys }, ?_, rfl, rfl, rfl, rfl,
          rfl, rfl, rfl, rfl⟩
        simp [add_record, hpk, hk]

end Server

namespace Server

/-! ## Claim theorems -/

/-- C9: the mode-points classifier returns 1 for "PH", 2 for "CW", 2 for
"DIG", and 0 for the empty string or any other value, comparing after
uppercasing the input. -/
theorem C9_points_from_modetest :
    points_from_modetest "PH" = 1
    ∧ points_from_modetest "CW" = 2
    ∧ points_from_modetest "DIG" = 2
    ∧ points_from_modetest "" = 0
    ∧ ∀ m : String, pyUpper m ≠ "PH" → pyUpper m ≠ "CW" → pyUpper m ≠ "DIG" →
        points_from_modetest m = 0 := by
  refine ⟨by decide, by decide, by decide, by decide, ?_⟩
  intro m h1 h2 h3
  simp [points_from_modetest, h1, h2, h3]

/-- Witness for C9 at the concrete other-value "FM". -/
theorem C9_points_from_modetest_witness :
    pyUpper "FM" ≠ "PH" ∧ pyUpper "FM" ≠ "CW" ∧ pyUpper "FM" ≠ "DIG"
    ∧ points_from_modetest "FM" = 0 :=
  ⟨by decide, by decide, by decide,
    C9_points_from_modetest.2.2.2.2 "FM" (by decide) (by decide) (by decide)⟩

/-- C1 (counterexample to the claim as stated): a record carrying a
primary-key field whose value does not parse as an integer is not
deduplicated — merging it twice counts two contacts. -/
theorem C1_counterexample :
    getV ([("FLDPRIMARYKEY", "X"), ("MODE", "CW")] : Record) "FLDPRIMARYKEY" = some "X"
    ∧ (add_record emptyAggregates [("FLDPRIMARYKEY", "X"), ("MODE", "CW")]).total_contacts
        = 1
    ∧ (add_record (add_record emptyAggregates [("FLDPRIMARYKEY", "X"), ("MODE", "CW")])
        [("FLDPRIMARYKEY", "X"), ("MODE", "CW")]).total_contacts = 2 := by
  decide

/-- C1 (amended): merging is idempotent per integer primary key.  For every
record whose primary key (FLDPRIMARYKEY, else PRIMARYKEY) parses as an
integer `k`: if `k` was already seen the record is discarded with the state
(hence all totals and counters) untouched; after one merge `k` is seen; and
merging the record again is a no-op, in any aggregate state, so the result
of merging it any number of times equals merging it once. -/
theorem C1_integer_key_dedup (st : Aggregates) (r : Record) (k : Int)
    (h : pkOf r = some k) :
    (k ∈ st.seen_keys → add_record st r = st)
    ∧ k ∈ (add_record st r).seen_keys
    ∧ add_record (add_record st r) r = add_record st r := by
  have hcore : ∀ s : Aggregates, (add_record_core s r).seen_keys = s.seen_keys :=
    fun s => rfl
  have hmem : k ∈ (add_record st r).seen_keys := by
    by_cases hk : k ∈ st.seen_keys
    · simp [add_record, h, hk]
    · simp [add_record, h, hk, hcore]
  refine ⟨fun hk => by simp [add_record, h, hk], hmem, ?_⟩
  generalize hs1 : add_record st r = s1 at hmem ⊢
  simp [add_record, h, hmem]

/-- Witness for C1 at a concrete record with integer key 42 on the empty
state. -/
theorem C1_integer_key_dedup_witness :
    pkOf [("FLDPRIMARYKEY", "42"), ("MODE", "CW")] = some 42
    ∧ ((42 ∈ emptyAggregates.seen_keys →
          add_record emptyAggregates [("FLDPRIMARYKEY", "42"), ("MODE", "CW")]
            = emptyAggregates)
        ∧ 42 ∈ (add_record emptyAggregates
            [("FLDPRIMARYKEY", "42"), ("MODE", "CW")]).seen_keys
        ∧ add_record (add_record emptyAggregates [("FLDPRIMARYKEY", "42"), ("MODE", "CW")])
            [("FLDPRIMARYKEY", "42"), ("MODE", "CW")]
            = add_record emptyAggregates [("FLDPRIMARYKEY", "42"), ("MODE", "CW")]) :=
  ⟨by decide,
    C1_integer_key_dedup emptyAggregates [("FLDPRIMARYKEY", "42"), ("MODE", "CW")] 42
      (by decide)⟩

end Server

namespace Server

/-- Merge step preserves "operator and mode counters sum to the contact
total". -/
theorem step_sums (st : Aggregates) (r : Record)
    (h : sumVals st.contacts_by_operator = st.total_contacts
      ∧ sumVals st.contacts_by_mode = st.total_contacts) :
    sumVals (add_record st r).contacts_by_operator = (add_record st r).total_contacts
    ∧ sumVals (add_record st r).contacts_by_mode = (add_record st r).total_contacts := by
  rcases add_record_cases st r with heq | ⟨st₀, heq, ec, _, eop, emode, _, _, _, _⟩
  · rw [heq]; exact h
  · rw [heq]
    have c1 : (add_record_core st₀ r).contacts_by_operator
        = bumpBy st₀.contacts_by_operator (opOf r) 1 := rfl
    have c2 : (add_record_core st₀ r).contacts_by_mode
        = bumpBy st₀.contacts_by_mode (modeOf r) 1 := rfl
    have c3 : (add_record_core st₀ r).total_contacts = st₀.total_contacts + 1 := rfl
    rw [c1, c2, c3, sumVals_bumpBy, sumVals_bumpBy, ec, eop, emode, h.1, h.2]
    exact ⟨rfl, rfl⟩

/-- C2: starting from the empty state, after any sequence of merges the
per-operator contact counts sum to the total contact count, and so do the
per-mode counts; a record with no non-empty operator field is counted
under the sentinel "UNKNOWN" operator. -/
theorem C2_contact_sums :
    (∀ rs : List Record,
        sumVals (List.foldl add_record emptyAggregates rs).contacts_by_operator
          = (List.foldl add_record emptyAggregates rs).total_contacts
      ∧ sumVals (List.foldl add_record emptyAggregates rs).contacts_by_mode
          = (List.foldl add_record emptyAggregates rs).total_contacts)
    ∧ (∀ r : Record, getV r "FLDOPERATOR" = none → getV r "OPERATOR" = none →
        opOf r = "UNKNOWN") := by
  constructor
  · intro rs
    exact foldl_add_record_inv
      (fun st => sumVals st.contacts_by_operator = st.total_contacts
        ∧ sumVals st.contacts_by_mode = st.total_contacts)
      step_sums rs emptyAggregates ⟨rfl, rfl⟩
  · intro r hA hB
    have he : pyStrip "" = "" := by decide
    simp [opOf, fieldOr, hA, hB, he]

/-- Witness for C2's operator-default clause at a record with no operator
field. -/
theorem C2_contact_sums_witness :
    getV ([("MODE", "CW")] : Record) "FLDOPERATOR" = none
    ∧ getV ([("MODE", "CW")] : Record) "OPERATOR" = none
    ∧ opOf [("MODE", "CW")] = "UNKNOWN" :=
  ⟨by decide, by decide, C2_contact_sums.2 [("MODE", "CW")] (by decide) (by decide)⟩

/-- Merge step preserves "hour-histogram counts sum to the length of the
time-instant list". -/
theorem step_hour_sum (st : Aggregates) (r : Record)
    (h : sumVals st.qsos_by_hour = st.all_qso_times.length) :
    sumVals (add_record st r).qsos_by_hour = (add_record st r).all_qso_times.length := by
  rcases add_record_cases st r with heq | ⟨st₀, heq, _, _, _, _, eqh, _, etimes, _⟩
  · rw [heq]; exact h
  · rw [heq]
    cases hhk : parseHourKey (dateOf r) (timeOf r) with
    | none =>
        have c1 : (add_record_core st₀ r).qsos_by_hour = st₀.qsos_by_hour := by
          simp [add_record_core, hhk]
        have c2 : (add_record_core st₀ r).all_qso_times = st₀.all_qso_times := by
          simp [add_record_core, hhk]
        rw [c1, c2, eqh, etimes]; exact h
    | some hk =>
        have c1 : (add_record_core st₀ r).qsos_by_hour = bumpBy st₀.qsos_by_hour hk 1 := by
          simp [add_record_core, hhk]
        have c2 : (add_record_core st₀ r).all_qso_times
            = st₀.all_qso_times ++ [dateOf r ++ " " ++ timeOf r] := by
          simp [add_record_core, hhk]
        rw [c1, c2, sumVals_bumpBy, eqh, etimes]
        simp [h]

/-- C10: starting from the empty state, after any sequence of merges the
counts of the overall hourly histogram sum to the length of the
time-instant list — each successful timestamp derivation increments one
hour bucket and appends one timestamp, and a failed derivation does
neither. -/
theorem C10_hour_histogram_total (rs : List Record) :
    sumVals (List.foldl add_record emptyAggregates rs).qsos_by_hour
      = (List.foldl add_record emptyAggregates rs).all_qso_times.length :=
  foldl_add_record_inv
    (fun st => sumVals st.qsos_by_hour = st.all_qso_times.length)
    step_hour_sum rs emptyAggregates rfl

end Server

namespace Server

/-- C4: when the timestamp derivation fails (missing or unparseable date or
time fields), add_record leaves the hourly histograms (overall and
per-band) and the time-instant list unchanged, while the merge body still
performs every non-time update — totals, per-dimension counters, sections
and the station registry — exactly as it does for a timestamped record
(the right-hand sides below do not depend on the timestamp at all). -/
theorem C4_unparseable_timestamp (st : Aggregates) (r : Record)
    (h : parseHourKey (dateOf r) (timeOf r) = none) :
    ((add_record st r).qsos_by_hour = st.qsos_by_hour
      ∧ (add_record st r).qsos_by_band_hour = st.qsos_by_band_hour
      ∧ (add_record st r).all_qso_times = st.all_qso_times)
    ∧ ((add_record_core st r).total_contacts = st.total_contacts + 1
      ∧ (add_record_core st r).total_points
          = st.total_points + points_from_modetest (modetestOf r)
      ∧ (add_record_core st r).contacts_by_operator
          = bumpBy st.contacts_by_operator (opOf r) 1
      ∧ (add_record_core st r).points_by_operator
          = bumpBy st.points_by_operator (opOf r) (points_from_modetest (modetestOf r))
      ∧ (add_record_core st r).contacts_by_mode = bumpBy st.contacts_by_mode (modeOf r) 1
      ∧ (add_record_core st r).contacts_by_band
          = (if bandOf r ≠ "" then bumpBy st.contacts_by_band (bandOf r) 1
             else st.contacts_by_band)
      ∧ (add_record_core st r).contacts_by_continent
          = (if contOf r ≠ "" then bumpBy st.contacts_by_continent (contOf r) 1
             else st.contacts_by_continent)
      ∧ (add_record_core st r).contacts_by_state
          = (if stateOf r ≠ "" then bumpBy st.contacts_by_state (stateOf r) 1
             else st.contacts_by_state)
      ∧ (add_record_core st r).contacts_by_country
          = (if countryOf r ≠ "" then bumpBy st.contacts_by_country (countryOf r) 1
             else st.contacts_by_country)
      ∧ (add_record_core st r).sections_worked
          = (if sectionOf r ≠ "" then addSection st.sections_worked (sectionOf r)
             else st.sections_worked)
      ∧ (add_record_core st r).stations
          = setStation st.stations (stationOf r) (stationUpd r)) := by
  constructor
  · rcases add_record_cases st r with heq | ⟨st₀, heq, _, _, _, _, eqh, eqbh, etimes, _⟩
    · rw [heq]; exact ⟨rfl, rfl, rfl⟩
    · rw [heq]
      refine ⟨?_, ?_, ?_⟩ <;> simp [add_record_core, h, eqh, eqbh, etimes]
  · exact ⟨rfl, rfl, rfl, rfl, rfl, rfl, rfl, rfl, rfl, rfl, rfl⟩

/-- Witness for C4 at a record whose date is in neither encoding. -/
theorem C4_unparseable_timestamp_witness :
    parseHourKey (dateOf [("MODE", "CW"), ("BAND", "20M"), ("DATE", "Jan 26"),
        ("TIMEON", "2159")])
      (timeOf [("MODE", "CW"), ("BAND", "20M"), ("DATE", "Jan 26"), ("TIMEON", "2159")])
      = none
    ∧ (add_record emptyAggregates
        [("MODE", "CW"), ("BAND", "20M"), ("DATE", "Jan 26"), ("TIMEON", "2159")]).qsos_by_hour
        = emptyAggregates.qsos_by_hour
    ∧ (add_record_core emptyAggregates
        [("MODE", "CW"), ("BAND", "20M"), ("DATE", "Jan 26"), ("TIMEON", "2159")]).total_contacts
        = emptyAggregates.total_contacts + 1 :=
  ⟨by decide,
    (C4_unparseable_timestamp emptyAggregates
      [("MODE", "CW"), ("BAND", "20M"), ("DATE", "Jan 26"), ("TIMEON", "2159")]
      (by decide)).1.1,
    (C4_unparseable_timestamp emptyAggregates
      [("MODE", "CW"), ("BAND", "20M"), ("DATE", "Jan 26"), ("TIMEON", "2159")]
      (by decide)).2.1⟩

/-- Looking a name up after a station upsert: the touched key maps to the
updated entry, every other name is untouched. -/
theorem getV_setStation (d : List (String × StationInfo)) (k : String)
    (f : Option StationInfo → StationInfo) (name : String) :
    getV (setStation d k f) name
      = if k = name then some (f (getV d k)) else getV d name := by
  induction d with
  | nil => by_cases hkn : k = name <;> simp [setStation, getV, hkn]
  | cons p t ih =>
      obtain ⟨a, v⟩ := p
      by_cases hak : a = k
      · subst hak
        by_cases han : a = name
        · subst han; simp [setStation, getV]
        · simp [setStation, getV, han, Ne.symm han]
      · by_cases han : a = name
        · subst han
          have hkn : ¬ k = a := fun hc => hak hc.symm
          simp [setStation, getV, hak, hkn]
        · simp [setStation, getV, hak, han, ih]

/-- Merge step preserves the 5-entry bound on every station's recent
list. -/
theorem step_recent_bound (st : Aggregates) (r : Record)
    (h : ∀ name info, getV st.stations name = some info → info.recent.length ≤ 5) :
    ∀ name info, getV (add_record st r).stations name = some info →
      info.recent.length ≤ 5 := by
  rcases add_record_cases st r with heq | ⟨st₀, heq, _, _, _, _, _, _, _, estations⟩
  · rw [heq]; exact h
  · rw [heq]
    intro name info hinfo
    have hs : (add_record_core st₀ r).stations
        = setStation st₀.stations (stationOf r) (stationUpd r) := rfl
    rw [hs, getV_setStation, estations] at hinfo
    by_cases hkn : stationOf r = name
    · rw [if_pos hkn] at hinfo
      obtain rfl : stationUpd r (getV st.stations (stationOf r)) = info :=
        Option.some.inj hinfo
      simp [stationUpd, List.length_take]
    · rw [if_neg hkn] at hinfo
      exact h name info hinfo

/-- C5: after any number of merges from the empty state, every station's
recent-contact list has at most 5 entries; and whenever a record is
accepted (not discarded by deduplication), the station it resolves to has
that record's contact summary as entry 0 of its recent list. -/
theorem C5_recent_ring :
    (∀ (rs : List Record) (name : String) (info : StationInfo),
        getV (List.foldl add_record emptyAggregates rs).stations name = some info →
        info.recent.length ≤ 5)
    ∧ (∀ (st : Aggregates) (r : Record),
        (pkOf r = none ∨ ∃ k, pkOf r = some k ∧ k ∉ st.seen_keys) →
        ∃ info, getV (add_record st r).stations (stationOf r) = some info
          ∧ info.recent.head? = some (qsoEntryOf r)) := by
  constructor
  · intro rs
    exact foldl_add_record_inv
      (fun st => ∀ name info, getV st.stations name = some info → info.recent.length ≤ 5)
      step_recent_bound rs emptyAggregates
      (by intro name info hinfo; simp [emptyAggregates, getV] at hinfo)
  · intro st r hacc
    have hstations : (add_record st r).stations
        = setStation st.stations (stationOf r) (stationUpd r) := by
      rcases hacc with hpk | ⟨k, hpk, hk⟩
      · simp [add_record, hpk]; rfl
      · simp [add_record, hpk, hk]; rfl
    exact ⟨stationUpd r (getV st.stations (stationOf r)),
      by rw [hstations, getV_setStation, if_pos rfl], rfl⟩

/-- Witness for C5 at a single concrete merge on the empty state. -/
theorem C5_recent_ring_witness :
    getV (List.foldl add_record emptyAggregates [[("CALL", "W1AW")]]).stations "Op: UNKNOWN"
      = some (⟨"Op: UNKNOWN", "UNKNOWN", "", "UNK",
          [⟨"W1AW", "UNKNOWN", "", "UNK", ""⟩], ""⟩ : StationInfo)
    ∧ (⟨"Op: UNKNOWN", "UNKNOWN", "", "UNK",
          [⟨"W1AW", "UNKNOWN", "", "UNK", ""⟩], ""⟩ : StationInfo).recent.length ≤ 5
    ∧ pkOf [("CALL", "W1AW")] = none
    ∧ (⟨"Op: UNKNOWN", "UNKNOWN", "", "UNK",
          [⟨"W1AW", "UNKNOWN", "", "UNK", ""⟩], ""⟩ : StationInfo).recent.head?
        = some (qsoEntryOf [("CALL", "W1AW")]) := by
  refine ⟨by decide,
    C5_recent_ring.1 [[("CALL", "W1AW")]] "Op: UNKNOWN" _ (by decide),
    by decide, ?_⟩
  obtain ⟨i, h1, h2⟩ :=
    C5_recent_ring.2 emptyAggregates [("CALL", "W1AW")] (Or.inl (by decide))
  have hgv : getV (add_record emptyAggregates [("CALL", "W1AW")]).stations
      (stationOf [("CALL", "W1AW")])
      = some (⟨"Op: UNKNOWN", "UNKNOWN", "", "UNK",
          [⟨"W1AW", "UNKNOWN", "", "UNK", ""⟩], ""⟩ : StationInfo) := by decide
  rw [hgv] at h1
  obtain rfl := Option.some.inj h1
  exact h2

end Server

namespace Server

/-- C6: the snapshot's final score equals
basePoints × classMultiplier × powerMultiplier + bonusPoints, where the
power multiplier is 2 exactly when the emergency-power flag is set and the
class multiplier is the leading digit of the configured class code (1 when
the code is absent — the default "1A" — or its first character is not a
digit); in particular base points 100, class multiplier 2, power
multiplier 2 and bonus points 300 give 700. -/
theorem C6_final_score :
    (∀ (agg : Aggregates) (cfg : FDConfig),
        (snapshotTotals agg (some cfg)).finalScore
          = (agg.total_points : Int)
              * ((calculate_field_day_bonus cfg).classMultiplier : Int)
              * ((calculate_field_day_bonus cfg).powerMultiplier : Int)
            + (calculate_field_day_bonus cfg).bonusPoints
      ∧ (calculate_field_day_bonus cfg).powerMultiplier
          = (if cfg.emergency_power then 2 else 1)
      ∧ (calculate_field_day_bonus cfg).classMultiplier
          = (match cfg.field_day_class with
             | none => 1
             | some s =>
                match s.data with
                | [] => 1
                | c :: _ => if c.isDigit then c.toNat - 48 else 1))
    ∧ (snapshotTotals { emptyAggregates with total_points := 100 }
          (some { field_day_class := some "2A", emergency_power := true,
                  media_publicity := true, public_location := true })).bonusPoints = 300
    ∧ (snapshotTotals { emptyAggregates with total_points := 100 }
          (some { field_day_class := some "2A", emergency_power := true,
                  media_publicity := true, public_location := true })).classMultiplier = 2
    ∧ (snapshotTotals { emptyAggregates with total_points := 100 }
          (some { field_day_class := some "2A", emergency_power := true,
                  media_publicity := true, public_location := true })).powerMultiplier = 2
    ∧ (snapshotTotals { emptyAggregates with total_points := 100 }
          (some { field_day_class := some "2A", emergency_power := true,
                  media_publicity := true, public_location := true })).finalScore = 700 := by
  refine ⟨?_, by decide, by decide, by decide, by decide⟩
  intro agg cfg
  refine ⟨rfl, rfl, ?_⟩
  cases h : cfg.field_day_class with
  | none => simp [calculate_field_day_bonus, h]
  | some s => cases hd : s.data <;> simp [calculate_field_day_bonus, h, hd]

end Server

namespace Server

/-- C7: the Framing-A sample parses to exactly one record mapping CALL to
"W1AW" and MODE to "CW"; and whenever a closing outer delimiter occurs
anywhere in the text, the whole response is parsed with the closed-block
framing (Format A) alone. -/
theorem C7_framing_a :
    parse_cmd_records "<LISTRESPONSE><CALL>W1AW</CALL><MODE>CW</MODE></LISTRESPONSE>"
      = [[("CALL", "W1AW"), ("MODE", "CW")]]
    ∧ ∀ text : String, containsCloseLR text.data = true →
        parse_cmd_records text
          = ((findBlocksA text.data).map parse_tags).filter (fun rc => !rc.isEmpty) := by
  refine ⟨by decide, ?_⟩
  intro text h
  cases hd : text.data with
  | nil => rw [hd] at h; simp [containsCloseLR] at h
  | cons c t =>
      rw [hd] at h
      simp [parse_cmd_records, formatA_records, hd, h]

/-- Witness for C7's framing-dispatch clause at the Framing-A sample. -/
theorem C7_framing_a_witness :
    containsCloseLR
        ("<LISTRESPONSE><CALL>W1AW</CALL><MODE>CW</MODE></LISTRESPONSE>" : String).data
      = true
    ∧ parse_cmd_records "<LISTRESPONSE><CALL>W1AW</CALL><MODE>CW</MODE></LISTRESPONSE>"
        = ((findBlocksA
            ("<LISTRESPONSE><CALL>W1AW</CALL><MODE>CW</MODE></LISTRESPONSE>" : String).data).map
              parse_tags).filter (fun rc => !rc.isEmpty) :=
  ⟨by decide, C7_framing_a.2 _ (by decide)⟩

/-- C8: the Framing-B sample parses to exactly two one-field records; and
whenever no closing outer delimiter occurs, the response is split at every
outer-marker occurrence, the preamble before the first marker is dropped,
each chunk becomes a record of its tag pairs, and chunks yielding zero tag
pairs are dropped rather than reported as errors. -/
theorem C8_framing_b :
    parse_cmd_records "<LISTRESPONSE><CALL>W1AW</CALL><LISTRESPONSE><CALL>K1ABC</CALL>"
      = [[("CALL", "W1AW")], [("CALL", "K1ABC")]]
    ∧ ∀ text : String, containsCloseLR text.data = false →
        parse_cmd_records text
          = (((splitMarkers text.data).drop 1).map parse_tags).filter
              (fun rc => !rc.isEmpty) := by
  refine ⟨by decide, ?_⟩
  intro text h
  cases hd : text.data with
  | nil =>
      have hl : parse_cmd_records text = [] := by simp [parse_cmd_records, hd]
      rw [hl]
      exact rfl
  | cons c t =>
      rw [hd] at h
      simp [parse_cmd_records, formatB_records, hd, h]

/-- Witness for C8's framing-dispatch clause at the Framing-B sample. -/
theorem C8_framing_b_witness :
    containsCloseLR
        ("<LISTRESPONSE><CALL>W1AW</CALL><LISTRESPONSE><CALL>K1ABC</CALL>" : String).data
      = false
    ∧ parse_cmd_records "<LISTRESPONSE><CALL>W1AW</CALL><LISTRESPONSE><CALL>K1ABC</CALL>"
        = (((splitMarkers
            ("<LISTRESPONSE><CALL>W1AW</CALL><LISTRESPONSE><CALL>K1ABC</CALL>" : String).data).drop
              1).map parse_tags).filter (fun rc => !rc.isEmpty) :=
  ⟨by decide, C8_framing_b.2 _ (by decide)⟩

end Server

namespace Server

/-- A band whose hourly histogram is non-empty gets the rounded
histogram-average rate from the band-rate loop. -/
theorem bandRatesLoop_getV (l : List (String × List (String × Nat))) (b : String)
    (hd : List (String × Nat)) (h1 : getV l b = some hd) (h2 : hd ≠ []) :
    getV (bandRatesLoop l) b = some (round1 (Rat.divInt (sumVals hd) hd.length)) := by
  induction l with
  | nil => simp [getV] at h1
  | cons p t ih =>
      obtain ⟨a, v⟩ := p
      by_cases hab : a = b
      · subst hab
        simp [getV] at h1
        subst h1
        have hlen : 0 < v.length := List.length_pos.mpr h2
        simp [bandRatesLoop, h2, getV, hlen]
      · simp [getV, hab] at h1
        by_cases hv : v = []
        · simp [bandRatesLoop, hv]
          exact ih h1
        · simp [bandRatesLoop, hv, getV, hab]
          exact ih h1

/-- If every band's hourly histogram is empty the band-rate loop yields
nothing. -/
theorem bandRatesLoop_nil_of_empty (l : List (String × List (String × Nat)))
    (h : ∀ p ∈ l, p.2 = []) : bandRatesLoop l = [] := by
  induction l with
  | nil => rfl
  | cons p t ih =>
      obtain ⟨a, v⟩ := p
      have hv : v = [] := h (a, v) (by simp)
      simp [bandRatesLoop, hv]
      exact ih (fun q hq => h q (by simp [hq]))

/-- Lookup through the 24-hour fallback map. -/
theorem getV_map_rate (l : List (String × Nat)) (b : String) (c : Nat)
    (h : getV l b = some c) :
    getV (l.map (fun p => (p.1, round1 (Rat.divInt p.2 24)))) b
      = some (round1 (Rat.divInt c 24)) := by
  induction l with
  | nil => simp [getV] at h
  | cons p t ih =>
      obtain ⟨a, v⟩ := p
      by_cases hab : a = b
      · subst hab
        simp [getV] at h
        subst h
        simp [getV]
      · simp [getV, hab] at h
        simp [getV, hab]
        exact ih h

/-- C3 (counterexample to the claim as stated): on a band that has both a
timestamped and an untimestamped contact, the reported rate divides the
band's *timestamped* contacts (the hourly-histogram total), not the band's
total contact count — here 2 contacts, 1 histogram hour, reported rate 1.0
instead of 2.0. -/
theorem C3_counterexample :
    getV (add_record (add_record emptyAggregates
        [("BAND", "20M"), ("DATE", "01/26"), ("TIMEON", "21:59")])
        [("BAND", "20M")]).contacts_by_band "20M" = some 2
    ∧ getV (add_record (add_record emptyAggregates
        [("BAND", "20M"), ("DATE", "01/26"), ("TIMEON", "21:59")])
        [("BAND", "20M")]).qsos_by_band_hour "20M" = some [("2026-01-26-21", 1)]
    ∧ getV (calc_band_rates (add_record (add_record emptyAggregates
        [("BAND", "20M"), ("DATE", "01/26"), ("TIMEON", "21:59")])
        [("BAND", "20M")])) "20M" = some (round1 (Rat.divInt 1 1))
    ∧ round1 (Rat.divInt 1 1) = 1
    ∧ round1 (Rat.divInt 2 1) = 2
    ∧ getV (calc_band_rates (add_record (add_record emptyAggregates
        [("BAND", "20M"), ("DATE", "01/26"), ("TIMEON", "21:59")])
        [("BAND", "20M")])) "20M" ≠ some (round1 (Rat.divInt 2 1)) := by
  decide

/-- C3 (amended): for every band with at least one hourly-histogram entry,
the reported per-band rate equals the band's timestamped-contact total
(the sum of its hourly histogram) divided by the number of distinct hour
buckets with activity on that band, rounded to one decimal; and when no
band has any hourly data but per-band contact counts exist, every band's
rate equals its total contact count divided by an assumed 24-hour
duration. -/
theorem C3_band_rates :
    (∀ (agg : Aggregates) (b : String) (hd : List (String × Nat)),
        getV agg.qsos_by_band_hour b = some hd → hd ≠ [] →
        getV (calc_band_rates agg) b
          = some (round1 (Rat.divInt (sumVals hd) hd.length)))
    ∧ (∀ agg : Aggregates,
        (∀ p ∈ agg.qsos_by_band_hour, p.2 = []) → agg.contacts_by_band ≠ [] →
        ∀ (b : String) (c : Nat), getV agg.contacts_by_band b = some c →
          getV (calc_band_rates agg) b = some (round1 (Rat.divInt c 24))) := by
  constructor
  · intro agg b hd h1 h2
    have hloop := bandRatesLoop_getV agg.qsos_by_band_hour b hd h1 h2
    have hne : bandRatesLoop agg.qsos_by_band_hour ≠ [] := by
      intro hc
      rw [hc] at hloop
      simp [getV] at hloop
    simp only [calc_band_rates]
    rw [if_neg (fun hc => hne hc.1)]
    exact hloop
  · intro agg hall hcb b c h
    have hnil := bandRatesLoop_nil_of_empty agg.qsos_by_band_hour hall
    simp only [calc_band_rates]
    rw [if_pos ⟨hnil, hcb⟩]
    exact getV_map_rate agg.contacts_by_band b c h

/-- Witness for C3 at a concrete two-hour histogram and at a concrete
no-hourly-data fallback state. -/
theorem C3_band_rates_witness :
    getV ({ qsos_by_band_hour :=
        [("20M", [("2026-06-22-18", 3), ("2026-06-22-19", 2)])] } :
        Aggregates).qsos_by_band_hour "20M"
      = some [("2026-06-22-18", 3), ("2026-06-22-19", 2)]
    ∧ ([("2026-06-22-18", 3), ("2026-06-22-19", 2)] : List (String × Nat)) ≠ []
    ∧ getV (calc_band_rates ({ qsos_by_band_hour :=
        [("20M", [("2026-06-22-18", 3), ("2026-06-22-19", 2)])] } : Aggregates)) "20M"
      = some (round1 (Rat.divInt
          (sumVals [("2026-06-22-18", 3), ("2026-06-22-19", 2)])
          ([("2026-06-22-18", 3), ("2026-06-22-19", 2)] :
            List (String × Nat)).length))
    ∧ ({ contacts_by_band := [("40M", 12)] } : Aggregates).qsos_by_band_hour = []
    ∧ ({ contacts_by_band := [("40M", 12)] } : Aggregates).contacts_by_band ≠ []
    ∧ getV (calc_band_rates ({ contacts_by_band := [("40M", 12)] } : Aggregates)) "40M"
      = some (round1 (Rat.divInt 12 24)) :=
  ⟨by decide, by decide,
    C3_band_rates.1 { qsos_by_band_hour :=
        [("20M", [("2026-06-22-18", 3), ("2026-06-22-19", 2)])] } "20M"
      [("2026-06-22-18", 3), ("2026-06-22-19", 2)] (by decide) (by decide),
    by decide, by decide,
    C3_band_rates.2 { contacts_by_band := [("40M", 12)] } (by simp) (by decide)
      "40M" 12 (by decide)⟩

end Server
